import Mathlib

/-
Verification of the subscription/broadcast core of the real-time data
distribution service (src/app.py).

The embedding mirrors the Python source:
- a Python dict is an association list with unique keys, built by the
  overwrite-or-append `dinsert`, the delete `derase`, and first-match
  `dlookup` (Python dicts have unique keys, so first-match is exact);
- `ConnectionManager` (app.py lines 39-93) becomes `ManagerState` with
  the operations `connect`, `disconnect`, `subscribe`, `unsubscribe`
  and `broadcast_data`;
- Python `list.remove(x)` guarded by `if x in l` is `List.erase`
  (remove the first occurrence, no-op when absent);
- `list(set(xs))` in `subscribe` produces the elements of `xs` with
  duplicates collapsed in an unspecified order; it is modelled as
  `List.dedup`, and every theorem about it is stated at the level of
  membership, which is order-independent;
- delivery is modelled by a `fails` oracle saying which connection's
  `send_json` raises.  In the source, the `except` handler at app.py
  line 91-93 runs `await self.disconnect(websocket)` where `disconnect`
  is a plain synchronous method returning `None`; awaiting `None`
  raises `TypeError` after the teardown has completed, so the broadcast
  loop is left immediately: `broadcast_data` returns with `raised :=
  true` and no further connection is visited.  This is encoded exactly
  in `broadcastGo`.
-/

namespace RTD

/-- A websocket connection handle (opaque in the core). -/
abbrev Conn := Nat

/-- A stored numeric value (app.py keeps floats; only equality matters here). -/
abbrev Value := Int

/-- The in-memory data store `data_store` (app.py line 35), a dict keyed by topic. -/
abbrev Store := List (String × Value)

/-- The `subscriptions` dict (app.py line 42), keyed by connection. -/
abbrev Subs := List (Conn × List String)

/-- First-match lookup, the semantics of `d[k]` / `d.get(k)` on a dict with unique keys. -/
def dlookup {α β : Type} [DecidableEq α] : List (α × β) → α → Option β
  | [], _ => none
  | (k, v) :: rest, a => if k = a then some v else dlookup rest a

/-- Dict assignment `d[k] = v`: overwrite the first binding of `k` in place, else append. -/
def dinsert {α β : Type} [DecidableEq α] : List (α × β) → α → β → List (α × β)
  | [], a, b => [(a, b)]
  | (k, v) :: rest, a, b => if k = a then (a, b) :: rest else (k, v) :: dinsert rest a b

/-- Dict deletion `del d[k]` (guarded by `k in d` in the source): drop the first binding. -/
def derase {α β : Type} [DecidableEq α] : List (α × β) → α → List (α × β)
  | [], _ => []
  | (k, v) :: rest, a => if k = a then rest else (k, v) :: derase rest a

/-- The key list of a dict. -/
def keys {α β : Type} : List (α × β) → List α := List.map Prod.fst

/-- State of `ConnectionManager` (app.py lines 39-42): the live connection list
`active_connections` and the per-connection subscription dict `subscriptions`. -/
structure ManagerState where
  active_connections : List Conn
  subscriptions : Subs
deriving DecidableEq, Repr

/-- `ConnectionManager.connect` (app.py lines 44-48): unconditionally appends the
connection to the live list and assigns it an empty subscription list. -/
def connect (m : ManagerState) (ws : Conn) : ManagerState :=
  { active_connections := m.active_connections ++ [ws]
    subscriptions := dinsert m.subscriptions ws [] }

/-- `ConnectionManager.disconnect` (app.py lines 50-55): remove the first occurrence
from the live list if present, and delete the subscription entry if present. -/
def disconnect (m : ManagerState) (ws : Conn) : ManagerState :=
  { active_connections := m.active_connections.erase ws
    subscriptions := derase m.subscriptions ws }

/-- `ConnectionManager.subscribe` (app.py lines 57-61): only if the connection has a
subscription entry, extend it with the new topics and collapse duplicates. -/
def subscribe (m : ManagerState) (ws : Conn) (topics : List String) : ManagerState :=
  match dlookup m.subscriptions ws with
  | some old =>
      { m with subscriptions := dinsert m.subscriptions ws ((old ++ topics).dedup) }
  | none => m

/-- `ConnectionManager.unsubscribe` (app.py lines 63-72): only if the connection has an
entry; `topics = None` clears it, otherwise each listed topic is removed if present. -/
def unsubscribe (m : ManagerState) (ws : Conn) (topics : Option (List String)) : ManagerState :=
  match dlookup m.subscriptions ws with
  | some old =>
      match topics with
      | none => { m with subscriptions := dinsert m.subscriptions ws [] }
      | some ts =>
          { m with subscriptions :=
              dinsert m.subscriptions ws (ts.foldl (fun acc t => acc.erase t) old) }
  | none => m

/-- A broadcast payload: the `data_to_send` dict of app.py lines 80-86, topic to value.
The per-entry delivery timestamp is wall-clock time and carries no information the
claims depend on, so entries are modelled as topic-value pairs. -/
abbrev Payload := List (String × Value)

/-- The payload built for one connection (app.py lines 80-86): its subscribed topics
restricted to those present in the store, in subscription-list order. -/
def payloadFor (m : ManagerState) (store : Store) (ws : Conn) : Payload :=
  ((dlookup m.subscriptions ws).getD []).filterMap
    (fun t => (dlookup store t).map (fun v => (t, v)))

/-- Result of one `broadcast_data` call: the manager state afterwards, the list of
successfully delivered (connection, payload) pairs in delivery order, and whether
the call terminated by an uncaught exception. -/
structure BroadcastResult where
  state : ManagerState
  sent : List (Conn × Payload)
  raised : Bool
deriving DecidableEq, Repr

/-- The loop body of `ConnectionManager.broadcast_data` (app.py lines 74-93).
A connection with no entry reads `[]` via `get` (line 76); empty topic list or empty
payload is skipped (lines 77-78, 88).  When `send_json` raises, the handler logs,
runs the synchronous teardown, and then the `await` of its `None` result raises
`TypeError` (line 93), so the loop is abandoned on the spot with no further sends. -/
def broadcastGo (store : Store) (fails : Conn → Bool) : List Conn → ManagerState → BroadcastResult
  | [], m => ⟨m, [], false⟩
  | ws :: rest, m =>
      if (dlookup m.subscriptions ws).getD [] = [] then
        broadcastGo store fails rest m
      else if payloadFor m store ws = [] then
        broadcastGo store fails rest m
      else if fails ws then
        ⟨disconnect m ws, [], true⟩
      else
        let r := broadcastGo store fails rest m
        ⟨r.state, (ws, payloadFor m store ws) :: r.sent, r.raised⟩

/-- `ConnectionManager.broadcast_data` (app.py lines 74-93), iterating the live list. -/
def broadcast_data (m : ManagerState) (store : Store) (fails : Conn → Bool) : BroadcastResult :=
  broadcastGo store fails m.active_connections m

/-- Response body of the `GET /data/.../...` route. -/
inductive GetDataResponse where
  | found (value : Value) (timestamp : Nat)
  | notFound
deriving DecidableEq, Repr

/-- The `get_data` route handler (app.py lines 123-128): look up `data_type:param`;
on a hit return value plus current time, otherwise the not-found body. -/
def get_data (store : Store) (data_type param : String) (now : Nat) : GetDataResponse :=
  match dlookup store (data_type ++ ":" ++ param) with
  | some v => .found v now
  | none => .notFound

/-- `data_store[key] = value` (app.py lines 108, 113): an unconditional overwrite. -/
def storeSet (store : Store) (k : String) (v : Value) : Store :=
  dinsert store k v

/-- A store built from the empty dict by a sequence of writes. -/
def applySets (writes : List (String × Value)) : Store :=
  writes.foldl (fun s kv => storeSet s kv.1 kv.2) []

/-- Decoding outcome of one inbound text frame, mirroring `json.loads` at app.py
line 144: the text may fail to decode (`JSONDecodeError`), decode to a non-object
JSON value (on which `.get` then raises `AttributeError`), or decode to an object,
of which only a string `command` field and a list-or-absent `topics` field are ever
inspected by the handler. -/
inductive Frame where
  | undecodable
  | nonObject
  | object (command : Option String) (topics : Option (List String))
deriving DecidableEq, Repr

/-- A reply frame written back to the client by the websocket endpoint. -/
inductive Reply where
  | subscribed (topics : List String)
  | unsubscribed
  | unknownCommand
  | invalidJson
deriving DecidableEq, Repr

/-- Whether the message loop goes on to await the next frame, or an uncaught
exception left the loop. -/
inductive Outcome where
  | continueLoop
  | raised
deriving DecidableEq, Repr

/-- Result of handling one inbound frame: the manager state afterwards, the reply
written to this client (if any), and whether the loop continues. -/
structure StepResult where
  state : ManagerState
  reply : Option Reply
  outcome : Outcome
deriving DecidableEq, Repr

/-- One iteration of the message loop of `websocket_endpoint` (app.py lines 141-163).
`JSONDecodeError` is answered with the invalid-JSON error and the loop continues;
a frame decoding to a non-object raises `AttributeError` at `message.get` (line 145),
which no handler catches, so the loop is left with no reply and no teardown;
an object frame is dispatched on its `command` field exactly as lines 147-160. -/
def handle_frame (m : ManagerState) (ws : Conn) : Frame → StepResult
  | .undecodable => ⟨m, some .invalidJson, .continueLoop⟩
  | .nonObject => ⟨m, none, .raised⟩
  | .object command topics =>
      if command = some "subscribe" then
        let ts := topics.getD []
        ⟨subscribe m ws ts, some (.subscribed ts), .continueLoop⟩
      else if command = some "unsubscribe" then
        ⟨unsubscribe m ws topics, some .unsubscribed, .continueLoop⟩
      else
        ⟨m, some .unknownCommand, .continueLoop⟩

/-- One registry operation, for stating invariants over operation sequences. -/
inductive Op where
  | connect (ws : Conn)
  | disconnect (ws : Conn)
  | subscribe (ws : Conn) (topics : List String)
  | unsubscribe (ws : Conn) (topics : Option (List String))
deriving DecidableEq, Repr

/-- Apply one operation to the manager state. -/
def applyOp (m : ManagerState) : Op → ManagerState
  | .connect ws => connect m ws
  | .disconnect ws => disconnect m ws
  | .subscribe ws ts => subscribe m ws ts
  | .unsubscribe ws ts => unsubscribe m ws ts

/-- Apply a sequence of operations in order. -/
def applyOps (m : ManagerState) (ops : List Op) : ManagerState :=
  ops.foldl applyOp m

/-- The manager state at process start: no connections, no subscriptions. -/
def initialState : ManagerState := ⟨[], []⟩

/-- An operation the transport layer can actually issue: `connect` is only ever
called on a freshly accepted websocket object, never on a handle that is already
live.  The other operations are unrestricted. -/
def okOp (m : ManagerState) : Op → Bool
  | .connect ws => decide (ws ∉ m.active_connections)
  | _ => true

/-- A sequence of operations each admissible in the state it is applied to. -/
def okOps : ManagerState → List Op → Bool
  | _, [] => true
  | m, op :: ops => okOp m op && okOps (applyOp m op) ops

/-- The registration invariant of the manager: the live list has no duplicates,
the subscription dict has no duplicate keys, and a connection is live exactly
when it has a subscription entry. -/
def goodState (m : ManagerState) : Prop :=
  m.active_connections.Nodup ∧ (keys m.subscriptions).Nodup ∧
  ∀ c, c ∈ m.active_connections ↔ (dlookup m.subscriptions c).isSome = true

/-- What one loop iteration of `broadcast_data` contributes when its send does not
fail: nothing for an empty topic list or empty payload, otherwise the payload. -/
def sendOf (m : ManagerState) (store : Store) (ws : Conn) : Option (Conn × Payload) :=
  if (dlookup m.subscriptions ws).getD [] = [] then none
  else if payloadFor m store ws = [] then none
  else some (ws, payloadFor m store ws)

/-- Two live connections both subscribed to a topic with data; the send to
connection 0 fails. -/
def exBroadcastM : ManagerState := ⟨[0, 1], [(0, ["A"]), (1, ["A"])]⟩

/-- Store holding the single topic both example connections subscribe to. -/
def exBroadcastStore : Store := [("A", 100)]

/-- Delivery oracle for the failing-broadcast examples: connection 0's send raises. -/
def exBroadcastFails : Conn → Bool := fun c => c == 0

/-- Three live connections all subscribed to a topic with data; connection 0 fails. -/
def exSiblingM : ManagerState := ⟨[0, 1, 2], [(0, ["A"]), (1, ["A"]), (2, ["A"])]⟩

/-- Store for the sibling-skip example. -/
def exSiblingStore : Store := [("A", 100)]

/-- Delivery oracle for the sibling-skip example: connection 0's send raises. -/
def exSiblingFails : Conn → Bool := fun c => c == 0

/-- A registered connection with no subscriptions, for the frame-handling example. -/
def exFrameM : ManagerState := ⟨[0], [(0, [])]⟩

/-- A state in which connection 0 is already registered and subscribed to one topic. -/
def exReconnectM : ManagerState := ⟨[0], [(0, ["A"])]⟩

/-- An operation sequence with a duplicate registration followed by a disconnect. -/
def exInvariantOps : List Op := [.connect 0, .connect 0, .disconnect 0]

/-- An admissible operation sequence: every connect targets a fresh handle. -/
def exOkOps : List Op := [.connect 0, .subscribe 0 ["A"], .connect 1, .disconnect 0]

/-- Connection 7 subscribed to one topic with data and one without. -/
def exPayloadM : ManagerState := ⟨[7], [(7, ["STOCK:AAPL", "SENSOR:1"])]⟩

/-- Store holding only the stock topic of the payload example. -/
def exPayloadStore : Store := [("STOCK:AAPL", 10123)]

/-- Delivery oracle under which no send fails. -/
def exNoFail : Conn → Bool := fun _ => false

/-- A single write sequence for the query-endpoint example. -/
def exWrites : List (String × Value) := [("STOCK:AAPL", 10123)]

/-- A registered connection already subscribed to topic B. -/
def exSubM : ManagerState := ⟨[0], [(0, ["B"])]⟩

/-- Connection 3 is live but has no subscription entry; connection 4 is normal. -/
def exSkipM : ManagerState := ⟨[3, 4], [(4, ["A"])]⟩

/-- Store for the missing-entry example. -/
def exSkipStore : Store := [("A", 5)]

/-- Delivery oracle for the missing-entry example: no send fails. -/
def exSkipFails : Conn → Bool := fun _ => false

theorem keys_nil {α β : Type} : keys ([] : List (α × β)) = [] := rfl

theorem keys_cons {α β : Type} (k : α) (v : β) (rest : List (α × β)) :
    keys ((k, v) :: rest) = k :: keys rest := rfl

theorem dlookup_dinsert {α β : Type} [DecidableEq α] (d : List (α × β)) (a : α) (b : β)
    (x : α) : dlookup (dinsert d a b) x = if x = a then some b else dlookup d x := by
  induction d with
  | nil =>
      by_cases hxa : x = a
      · subst hxa
        simp [dinsert, dlookup]
      · have hax : ¬ a = x := fun h => hxa h.symm
        simp [dinsert, dlookup, hxa, hax]
  | cons kv rest ih =>
      obtain ⟨k, v⟩ := kv
      by_cases hka : k = a
      · subst hka
        by_cases hxk : x = k
        · subst hxk
          simp [dinsert, dlookup]
        · have hkx : ¬ k = x := fun h => hxk h.symm
          simp [dinsert, dlookup, hxk, hkx]
      · by_cases hkx : k = x
        · subst hkx
          simp [dinsert, dlookup, hka]
        · simp [dinsert, dlookup, hka, hkx, ih]

theorem dlookup_eq_none_iff {α β : Type} [DecidableEq α] (d : List (α × β)) (a : α) :
    dlookup d a = none ↔ a ∉ keys d := by
  induction d with
  | nil => simp [dlookup, keys_nil]
  | cons kv rest ih =>
      obtain ⟨k, v⟩ := kv
      simp only [dlookup, keys_cons, List.mem_cons]
      by_cases hka : k = a
      · subst hka
        simp
      · rw [if_neg hka]
        rw [ih]
        constructor
        · intro hna hor
          rcases hor with h1 | h2
          · exact hka h1.symm
          · exact hna h2
        · intro hno hmem
          exact hno (Or.inr hmem)

theorem dlookup_isSome_iff {α β : Type} [DecidableEq α] (d : List (α × β)) (a : α) :
    (dlookup d a).isSome = true ↔ a ∈ keys d := by
  rcases h : dlookup d a with _ | v
  · simpa using (dlookup_eq_none_iff d a).mp h
  · have hne : ¬ dlookup d a = none := by simp [h]
    have hmem : a ∈ keys d := by
      by_contra hno
      exact hne ((dlookup_eq_none_iff d a).mpr hno)
    simpa using hmem

theorem keys_dinsert_of_mem {α β : Type} [DecidableEq α] (d : List (α × β)) (a : α) (b : β)
    (h : a ∈ keys d) : keys (dinsert d a b) = keys d := by
  induction d with
  | nil => simp [keys_nil] at h
  | cons kv rest ih =>
      obtain ⟨k, v⟩ := kv
      simp only [dinsert]
      by_cases hka : k = a
      · rw [if_pos hka, keys_cons, keys_cons, hka]
      · rw [if_neg hka, keys_cons, keys_cons]
        have hmem : a ∈ keys rest := by
          rcases (by simpa [keys_cons] using h : a = k ∨ a ∈ keys rest) with h1 | h2
          · exact absurd h1.symm hka
          · exact h2
        rw [ih hmem]

theorem keys_dinsert_of_not_mem {α β : Type} [DecidableEq α] (d : List (α × β)) (a : α)
    (b : β) (h : a ∉ keys d) : keys (dinsert d a b) = keys d ++ [a] := by
  induction d with
  | nil => simp [dinsert, keys_nil, keys_cons]
  | cons kv rest ih =>
      obtain ⟨k, v⟩ := kv
      have hka : ¬ k = a := by
        intro hk
        exact h (by simp [keys_cons, hk])
      have hrest : a ∉ keys rest := fun hm => h (by simp [keys_cons, hm])
      simp only [dinsert]
      rw [if_neg hka, keys_cons, keys_cons, ih hrest, List.cons_append]

theorem keys_derase {α β : Type} [DecidableEq α] (d : List (α × β)) (a : α) :
    keys (derase d a) = (keys d).erase a := by
  induction d with
  | nil => simp [derase, keys_nil]
  | cons kv rest ih =>
      obtain ⟨k, v⟩ := kv
      simp only [derase]
      by_cases hka : k = a
      · subst hka
        rw [if_pos rfl, keys_cons, List.erase_cons_head]
      · rw [if_neg hka, keys_cons, keys_cons,
          List.erase_cons_tail (by simpa using hka), ih]

theorem dlookup_derase_ne {α β : Type} [DecidableEq α] (d : List (α × β)) (a x : α)
    (h : ¬ x = a) : dlookup (derase d a) x = dlookup d x := by
  induction d with
  | nil => simp [derase]
  | cons kv rest ih =>
      obtain ⟨k, v⟩ := kv
      by_cases hka : k = a
      · subst hka
        have hkx : ¬ k = x := fun hk => h hk.symm
        simp [derase, dlookup, hkx]
      · simp [derase, dlookup, hka, ih]

theorem dlookup_derase_self {α β : Type} [DecidableEq α] (d : List (α × β)) (a : α)
    (h : (keys d).Nodup) : dlookup (derase d a) a = none := by
  rw [dlookup_eq_none_iff, keys_derase]
  intro hmem
  rcases h.mem_erase_iff.mp hmem with ⟨hne, _⟩
  exact hne rfl

theorem goodState_initial : goodState initialState := by
  refine ⟨List.nodup_nil, List.nodup_nil, ?_⟩
  intro c
  simp [initialState, dlookup, keys_nil]

theorem goodState_dinsert_existing (m : ManagerState) (ws : Conn) (v : List String)
    (hg : goodState m) (h : (dlookup m.subscriptions ws).isSome = true) :
    goodState ⟨m.active_connections, dinsert m.subscriptions ws v⟩ := by
  obtain ⟨hn, hk, hiff⟩ := hg
  have hmem : ws ∈ keys m.subscriptions := (dlookup_isSome_iff _ _).mp h
  refine ⟨hn, ?_, ?_⟩
  · show (keys (dinsert m.subscriptions ws v)).Nodup
    rw [keys_dinsert_of_mem _ _ _ hmem]
    exact hk
  · intro c
    show c ∈ m.active_connections ↔ (dlookup (dinsert m.subscriptions ws v) c).isSome = true
    rw [dlookup_dinsert]
    by_cases hc : c = ws
    · subst hc
      simpa using (hiff c).mpr h
    · rw [if_neg hc]
      exact hiff c

theorem goodState_connect (m : ManagerState) (ws : Conn) (hg : goodState m)
    (h : ws ∉ m.active_connections) : goodState (connect m ws) := by
  obtain ⟨hn, hk, hiff⟩ := hg
  have hnone : dlookup m.subscriptions ws = none := by
    rw [dlookup_eq_none_iff]
    intro hmem
    exact h ((hiff ws).mpr ((dlookup_isSome_iff _ _).mpr hmem))
  have hknot : ws ∉ keys m.subscriptions := (dlookup_eq_none_iff _ _).mp hnone
  refine ⟨?_, ?_, ?_⟩
  · show (m.active_connections ++ [ws]).Nodup
    refine List.Nodup.append hn (List.nodup_singleton ws) ?_
    intro a ha hb
    rw [List.mem_singleton] at hb
    subst hb
    exact h ha
  · show (keys (dinsert m.subscriptions ws [])).Nodup
    rw [keys_dinsert_of_not_mem _ _ _ hknot]
    refine List.Nodup.append hk (List.nodup_singleton ws) ?_
    intro a ha hb
    rw [List.mem_singleton] at hb
    subst hb
    exact hknot ha
  · intro c
    show c ∈ m.active_connections ++ [ws] ↔
      (dlookup (dinsert m.subscriptions ws []) c).isSome = true
    rw [dlookup_dinsert]
    by_cases hc : c = ws
    · subst hc
      simp
    · rw [if_neg hc]
      simp [List.mem_append, hc, hiff c]

theorem goodState_disconnect (m : ManagerState) (ws : Conn) (hg : goodState m) :
    goodState (disconnect m ws) := by
  obtain ⟨hn, hk, hiff⟩ := hg
  refine ⟨hn.erase ws, ?_, ?_⟩
  · show (keys (derase m.subscriptions ws)).Nodup
    rw [keys_derase]
    exact hk.erase ws
  · intro c
    show c ∈ m.active_connections.erase ws ↔
      (dlookup (derase m.subscriptions ws) c).isSome = true
    by_cases hc : c = ws
    · subst hc
      rw [dlookup_derase_self _ _ hk]
      simp [hn.not_mem_erase]
    · rw [dlookup_derase_ne _ _ _ hc, hn.mem_erase_iff]
      simp [hc, hiff c]

theorem goodState_subscribe (m : ManagerState) (ws : Conn) (ts : List String)
    (hg : goodState m) : goodState (subscribe m ws ts) := by
  rcases h : dlookup m.subscriptions ws with _ | old
  · simpa [subscribe, h] using hg
  · have hs : (dlookup m.subscriptions ws).isSome = true := by simp [h]
    have hgood := goodState_dinsert_existing m ws ((old ++ ts).dedup) hg hs
    simpa [subscribe, h] using hgood

theorem goodState_unsubscribe (m : ManagerState) (ws : Conn) (ts : Option (List String))
    (hg : goodState m) : goodState (unsubscribe m ws ts) := by
  rcases h : dlookup m.subscriptions ws with _ | old
  · simpa [unsubscribe, h] using hg
  · have hs : (dlookup m.subscriptions ws).isSome = true := by simp [h]
    rcases ts with _ | l
    · have hgood := goodState_dinsert_existing m ws [] hg hs
      simpa [unsubscribe, h] using hgood
    · have hgood := goodState_dinsert_existing m ws
        (l.foldl (fun acc t => acc.erase t) old) hg hs
      simpa [unsubscribe, h] using hgood

theorem goodState_applyOp (m : ManagerState) (op : Op) (hg : goodState m)
    (hok : okOp m op = true) : goodState (applyOp m op) := by
  cases op with
  | connect ws =>
      have h : ws ∉ m.active_connections := by simpa [okOp] using hok
      exact goodState_connect m ws hg h
  | disconnect ws => exact goodState_disconnect m ws hg
  | subscribe ws ts => exact goodState_subscribe m ws ts hg
  | unsubscribe ws ts => exact goodState_unsubscribe m ws ts hg

theorem goodState_applyOps (ops : List Op) : ∀ (m : ManagerState), goodState m →
    okOps m ops = true → goodState (applyOps m ops) := by
  induction ops with
  | nil =>
      intro m hg _
      simpa [applyOps] using hg
  | cons op ops ih =>
      intro m hg hok
      have h12 : okOp m op = true ∧ okOps (applyOp m op) ops = true := by
        simpa [okOps] using hok
      rcases h12 with ⟨h1, h2⟩
      have hstep : applyOps m (op :: ops) = applyOps (applyOp m op) ops := by
        simp [applyOps]
      rw [hstep]
      exact ih (applyOp m op) (goodState_applyOp m op hg h1) h2

theorem broadcastGo_noFail (store : Store) (fails : Conn → Bool)
    (hf : ∀ c, fails c = false) : ∀ (l : List Conn) (m : ManagerState),
    broadcastGo store fails l m = ⟨m, l.filterMap (sendOf m store), false⟩ := by
  intro l
  induction l with
  | nil =>
      intro m
      simp [broadcastGo]
  | cons ws rest ih =>
      intro m
      by_cases h1 : (dlookup m.subscriptions ws).getD [] = []
      · have hs : sendOf m store ws = none := by simp [sendOf, h1]
        simp [broadcastGo, h1, hs, ih]
      · by_cases h2 : payloadFor m store ws = []
        · have hs : sendOf m store ws = none := by simp [sendOf, h1, h2]
          simp [broadcastGo, h1, h2, hs, ih]
        · have hs : sendOf m store ws = some (ws, payloadFor m store ws) := by
            simp [sendOf, h1, h2]
          simp [broadcastGo, h1, h2, hf ws, hs, ih]

theorem broadcastGo_not_sent_of_no_entry (store : Store) (fails : Conn → Bool) (ws : Conn) :
    ∀ (l : List Conn) (m : ManagerState), dlookup m.subscriptions ws = none →
    ∀ p, (ws, p) ∉ (broadcastGo store fails l m).sent := by
  intro l
  induction l with
  | nil =>
      intro m h p
      simp [broadcastGo]
  | cons c rest ih =>
      intro m h p
      by_cases h1 : (dlookup m.subscriptions c).getD [] = []
      · simpa [broadcastGo, h1] using ih m h p
      · by_cases h2 : payloadFor m store c = []
        · simpa [broadcastGo, h1, h2] using ih m h p
        · by_cases h3 : fails c = true
          · simp [broadcastGo, h1, h2, h3]
          · have hcw : ¬ ws = c := by
              intro hc
              subst hc
              exact h1 (by simp [h])
            have hrest := ih m h p
            simp [broadcastGo, h1, h2, h3, List.mem_cons, hcw, hrest]

theorem payloadFor_mem (m : ManagerState) (store : Store) (ws : Conn) (t : String)
    (v : Value) : (t, v) ∈ payloadFor m store ws ↔
      t ∈ (dlookup m.subscriptions ws).getD [] ∧ dlookup store t = some v := by
  simp only [payloadFor, List.mem_filterMap]
  constructor
  · rintro ⟨t1, ht1, heq⟩
    rcases Option.map_eq_some'.mp heq with ⟨v1, hv1, hpair⟩
    have ht : t1 = t := congrArg Prod.fst hpair
    have hv : v1 = v := congrArg Prod.snd hpair
    subst ht
    subst hv
    exact ⟨ht1, hv1⟩
  · rintro ⟨ht, hv⟩
    exact ⟨t, ht, by simp [hv]⟩

theorem payloadFor_eq_nil_iff (m : ManagerState) (store : Store) (ws : Conn) :
    payloadFor m store ws = [] ↔
      ∀ t ∈ (dlookup m.subscriptions ws).getD [], dlookup store t = none := by
  simp [payloadFor, List.filterMap_eq_nil_iff, Option.map_eq_none']

theorem dlookup_applySets_not_mem (writes : List (String × Value)) (k : String)
    (h : k ∉ keys writes) : dlookup (applySets writes) k = none := by
  have hgen : ∀ (ws : List (String × Value)) (s : Store), k ∉ keys ws →
      dlookup s k = none →
      dlookup (ws.foldl (fun s kv => storeSet s kv.1 kv.2) s) k = none := by
    intro ws
    induction ws with
    | nil =>
        intro s _ hs
        simpa using hs
    | cons kv rest ih =>
        intro s hmem hs
        obtain ⟨k1, v1⟩ := kv
        have hk1 : ¬ k = k1 := by
          intro hk
          exact hmem (by simp [keys_cons, hk])
        have hrest : k ∉ keys rest := fun hm => hmem (by simp [keys_cons, hm])
        have hstep : dlookup (storeSet s k1 v1) k = none := by
          rw [storeSet, dlookup_dinsert, if_neg hk1]
          exact hs
        simpa using ih (storeSet s k1 v1) hrest hstep
  exact hgen writes [] h rfl

/-- C1: the claim says a delivery failure tears the connection down and broadcasting
continues with the next connection, never raising out of the broadcast.  In the code
the `except` handler at app.py line 93 executes `await self.disconnect(websocket)`
where `disconnect` is a plain synchronous method: the teardown itself completes, but
awaiting its `None` result raises `TypeError`, which nothing catches, so the tick is
aborted (here connection 1, live and subscribed to a topic with data, receives
nothing) and the exception propagates into `generate_data`, ending the tick loop. -/
theorem C1_send_failure_aborts_tick :
    (broadcast_data exBroadcastM exBroadcastStore exBroadcastFails).raised = true ∧
    (broadcast_data exBroadcastM exBroadcastStore exBroadcastFails).sent = [] ∧
    (broadcast_data exBroadcastM exBroadcastStore exBroadcastFails).state.active_connections
      = [1] ∧
    dlookup (broadcast_data exBroadcastM exBroadcastStore
      exBroadcastFails).state.subscriptions 0 = none := by
  decide

/-- C2: the claim says teardown of a failed connection mid-tick never causes another
still-live connection to be skipped, and the torn-down connection is gone afterwards.
The second half holds, but on the concrete state with live connections 0, 1, 2 all
subscribed to a topic with data, the failure of connection 0 aborts the loop (the
`TypeError` of app.py line 93), so connections 1 and 2 — still live, payload
non-empty — receive nothing in that tick. -/
theorem C2_sibling_skipped_on_teardown :
    1 ∈ exSiblingM.active_connections ∧
    payloadFor exSiblingM exSiblingStore 1 ≠ [] ∧
    (∀ p, (1, p) ∉ (broadcast_data exSiblingM exSiblingStore exSiblingFails).sent) ∧
    0 ∉ (broadcast_data exSiblingM exSiblingStore exSiblingFails).state.active_connections := by
  have hsent : (broadcast_data exSiblingM exSiblingStore exSiblingFails).sent = [] := by
    decide
  refine ⟨by decide, by decide, ?_, by decide⟩
  intro p
  rw [hsent]
  simp

/-- C3 counterexample: the claim says every inbound frame that does not decode as the
expected structured command envelope yields an error reply and leaves the loop
running.  A frame that decodes as JSON but not as an object (for example the text
`5`) is such a frame, yet `message.get` at app.py line 145 raises `AttributeError`,
which the `except json.JSONDecodeError` handler does not catch: no reply is written
and the message loop is left. -/
theorem C3_non_object_frame_raises :
    (handle_frame exFrameM 0 .nonObject).reply = none ∧
    (handle_frame exFrameM 0 .nonObject).outcome = .raised := by
  decide

/-- C3 amended: a frame that fails JSON decoding is answered with the invalid-JSON
error reply, the connection stays open with its registration and subscriptions
unchanged, and the loop continues; a frame that decodes as JSON but not as an
object instead raises uncaught out of the message loop, with no reply and no
state change. -/
theorem C3_undecodable_frame_recoverable (m : ManagerState) (ws : Conn) :
    handle_frame m ws .undecodable = ⟨m, some .invalidJson, .continueLoop⟩ ∧
    handle_frame m ws .nonObject = ⟨m, none, .raised⟩ :=
  ⟨rfl, rfl⟩

/-- C4 counterexample: the claim says registering an already-registered connection is
a no-op.  On a state where connection 0 is live and subscribed to topic A,
`connect` appends a second entry to the live list and resets the subscription
entry to the empty list. -/
theorem C4_reconnect_not_noop :
    dlookup exReconnectM.subscriptions 0 = some ["A"] ∧
    (connect exReconnectM 0).active_connections = [0, 0] ∧
    dlookup (connect exReconnectM 0).subscriptions 0 = some [] := by
  decide

/-- C4 amended: registering an already-registered connection is not a no-op: it
appends a second entry for the connection to the live connection list and resets
the connection's subscription entry to the empty set. -/
theorem C4_reconnect_duplicates_and_resets (m : ManagerState) (ws : Conn)
    (_h : ws ∈ m.active_connections) :
    (connect m ws).active_connections = m.active_connections ++ [ws] ∧
    dlookup (connect m ws).subscriptions ws = some [] := by
  refine ⟨rfl, ?_⟩
  show dlookup (dinsert m.subscriptions ws []) ws = some []
  rw [dlookup_dinsert, if_pos rfl]

/-- C4 witness: the amended statement evaluated on the concrete already-registered
connection 0. -/
theorem C4_reconnect_witness :
    0 ∈ exReconnectM.active_connections ∧
    ((connect exReconnectM 0).active_connections = exReconnectM.active_connections ++ [0] ∧
      dlookup (connect exReconnectM 0).subscriptions 0 = some []) :=
  ⟨by decide, C4_reconnect_duplicates_and_resets exReconnectM 0 (by decide)⟩

/-- C5 counterexample: the claim quantifies over every sequence of connect,
disconnect, subscribe and unsubscribe operations.  After connect 0, connect 0,
disconnect 0 (a duplicate registration), connection 0 is still in the live list —
`list.remove` drops only the first copy — but its subscription entry is gone. -/
theorem C5_duplicate_connect_breaks_invariant :
    0 ∈ (applyOps initialState exInvariantOps).active_connections ∧
    dlookup (applyOps initialState exInvariantOps).subscriptions 0 = none := by
  decide

/-- C5 amended: for every sequence of operations in which `connect` is only ever
applied to a connection that is not already live — which is all the transport
layer can produce, since each accepted websocket is a fresh handle — a connection
is in the live connection set if and only if it has an entry in the subscription
mapping. -/
theorem C5_registration_invariant (ops : List Op) (h : okOps initialState ops = true)
    (ws : Conn) :
    ws ∈ (applyOps initialState ops).active_connections ↔
      (dlookup (applyOps initialState ops).subscriptions ws).isSome = true :=
  (goodState_applyOps ops initialState goodState_initial h).2.2 ws

/-- C5 witness: the amended invariant evaluated after a concrete admissible
sequence of operations. -/
theorem C5_registration_witness :
    okOps initialState exOkOps = true ∧
    (1 ∈ (applyOps initialState exOkOps).active_connections ↔
      (dlookup (applyOps initialState exOkOps).subscriptions 1).isSome = true) :=
  ⟨by decide, C5_registration_invariant exOkOps (by decide) 1⟩

/-- C6: on a tick where no send fails, a live connection receives a message exactly
when at least one of its subscribed topics has a stored value, and any message it
receives contains exactly the subscribed topics with stored values, each mapped
to its current value; topics without data are omitted and no message is sent when
the subscribed set is empty or has no data. -/
theorem C6_broadcast_message_iff (m : ManagerState) (store : Store)
    (fails : Conn → Bool) (hf : ∀ c, fails c = false) (ws : Conn)
    (hws : ws ∈ m.active_connections) :
    ((∃ p, (ws, p) ∈ (broadcast_data m store fails).sent) ↔
      ∃ t, t ∈ (dlookup m.subscriptions ws).getD [] ∧ (dlookup store t).isSome = true) ∧
    (∀ p, (ws, p) ∈ (broadcast_data m store fails).sent →
      ∀ t v, ((t, v) ∈ p ↔
        t ∈ (dlookup m.subscriptions ws).getD [] ∧ dlookup store t = some v)) := by
  have hb : broadcast_data m store fails =
      ⟨m, m.active_connections.filterMap (sendOf m store), false⟩ :=
    broadcastGo_noFail store fails hf m.active_connections m
  have hsend : ∀ c p, sendOf m store c = some (ws, p) →
      c = ws ∧ p = payloadFor m store ws ∧ payloadFor m store ws ≠ [] := by
    intro c p hc
    by_cases h1 : (dlookup m.subscriptions c).getD [] = []
    · simp [sendOf, h1] at hc
    · by_cases h2 : payloadFor m store c = []
      · simp [sendOf, h1, h2] at hc
      · rw [sendOf, if_neg h1, if_neg h2] at hc
        have hpair : (c, payloadFor m store c) = (ws, p) := by
          simpa using hc
        have hcw : c = ws := congrArg Prod.fst hpair
        have hpp : payloadFor m store c = p := congrArg Prod.snd hpair
        subst hcw
        exact ⟨rfl, hpp.symm, h2⟩
  constructor
  · constructor
    · rintro ⟨p, hp⟩
      rw [hb] at hp
      rcases List.mem_filterMap.mp hp with ⟨c, _, hc⟩
      obtain ⟨hcw, hpp, hne⟩ := hsend c p hc
      rcases List.exists_mem_of_ne_nil _ hne with ⟨tv, htv⟩
      obtain ⟨t, v⟩ := tv
      rcases (payloadFor_mem m store ws t v).mp htv with ⟨ht, hv⟩
      exact ⟨t, ht, by simp [hv]⟩
    · rintro ⟨t, ht, hv⟩
      rcases Option.isSome_iff_exists.mp hv with ⟨v, hv1⟩
      have hmem : (t, v) ∈ payloadFor m store ws :=
        (payloadFor_mem m store ws t v).mpr ⟨ht, hv1⟩
      have hne : payloadFor m store ws ≠ [] := by
        intro h0
        rw [h0] at hmem
        simp at hmem
      have htne : ¬ (dlookup m.subscriptions ws).getD [] = [] := by
        intro h0
        rw [h0] at ht
        simp at ht
      have hsome : sendOf m store ws = some (ws, payloadFor m store ws) := by
        rw [sendOf, if_neg htne, if_neg hne]
      refine ⟨payloadFor m store ws, ?_⟩
      rw [hb]
      exact List.mem_filterMap.mpr ⟨ws, hws, hsome⟩
  · intro p hp t v
    rw [hb] at hp
    rcases List.mem_filterMap.mp hp with ⟨c, _, hc⟩
    obtain ⟨_, hpp, _⟩ := hsend c p hc
    rw [hpp]
    exact payloadFor_mem m store ws t v

/-- C6 witness: the broadcast-selection property evaluated on a connection
subscribed to one topic with data and one without, with no failing send. -/
theorem C6_broadcast_witness :
    (∀ c, exNoFail c = false) ∧ 7 ∈ exPayloadM.active_connections ∧
    ((∃ p, (7, p) ∈ (broadcast_data exPayloadM exPayloadStore exNoFail).sent) ↔
      ∃ t, t ∈ (dlookup exPayloadM.subscriptions 7).getD [] ∧
        (dlookup exPayloadStore t).isSome = true) :=
  ⟨fun _ => rfl, by decide,
    (C6_broadcast_message_iff exPayloadM exPayloadStore exNoFail
      (fun _ => rfl) 7 (by decide)).1⟩

/-- C7: the query endpoint returns the stored value with a timestamp whenever the
built key `category:instance` is present in the store, and returns the not-found
body for every key that was never written. -/
theorem C7_get_data_hit_and_miss (writes : List (String × Value))
    (data_type param : String) (now : Nat) :
    (∀ v, dlookup (applySets writes) (data_type ++ ":" ++ param) = some v →
      get_data (applySets writes) data_type param now = .found v now) ∧
    ((data_type ++ ":" ++ param) ∉ keys writes →
      get_data (applySets writes) data_type param now = .notFound) := by
  constructor
  · intro v hv
    simp [get_data, hv]
  · intro h
    simp [get_data, dlookup_applySets_not_mem writes _ h]

/-- C7 witness: after the single write of 10123 to STOCK:AAPL, the endpoint returns
it with the timestamp; SENSOR:1 was never written and returns not-found. -/
theorem C7_get_data_witness :
    get_data (applySets exWrites) "STOCK" "AAPL" 5 = .found 10123 5 ∧
    get_data (applySets exWrites) "SENSOR" "1" 5 = .notFound :=
  ⟨(C7_get_data_hit_and_miss exWrites "STOCK" "AAPL" 5).1 10123 (by decide),
   (C7_get_data_hit_and_miss exWrites "SENSOR" "1" 5).2 (by decide)⟩

/-- C8: for a registered connection, subscribing with a duplicate-bearing topic list
yields the same subscribed set as the deduplicated list, and repeating the
identical subscribe call leaves the subscribed set unchanged. -/
theorem C8_subscribe_set_union (m : ManagerState) (ws : Conn) (ts : List String)
    (h : (dlookup m.subscriptions ws).isSome = true) :
    (∀ t, t ∈ (dlookup (subscribe m ws ts).subscriptions ws).getD [] ↔
      t ∈ (dlookup (subscribe m ws ts.dedup).subscriptions ws).getD []) ∧
    (∀ t, t ∈ (dlookup (subscribe (subscribe m ws ts) ws ts).subscriptions ws).getD [] ↔
      t ∈ (dlookup (subscribe m ws ts).subscriptions ws).getD []) := by
  rcases hold : dlookup m.subscriptions ws with _ | old
  · rw [hold] at h
    simp at h
  · have h1 : dlookup (subscribe m ws ts).subscriptions ws = some ((old ++ ts).dedup) := by
      simp [subscribe, hold, dlookup_dinsert]
    have h2 : dlookup (subscribe m ws ts.dedup).subscriptions ws
        = some ((old ++ ts.dedup).dedup) := by
      simp [subscribe, hold, dlookup_dinsert]
    have h3 : dlookup (subscribe (subscribe m ws ts) ws ts).subscriptions ws
        = some ((((old ++ ts).dedup) ++ ts).dedup) := by
      simp [subscribe, hold, h1, dlookup_dinsert]
    constructor
    · intro t
      rw [h1, h2]
      simp [List.mem_dedup, List.mem_append]
    · intro t
      rw [h3, h1]
      simp only [Option.getD_some, List.mem_dedup, List.mem_append]
      tauto

/-- C8 witness: subscribing connection 0 (already subscribed to B) with the list
A, A, B yields the same membership as with its deduplication. -/
theorem C8_subscribe_witness :
    (dlookup exSubM.subscriptions 0).isSome = true ∧
    ("A" ∈ (dlookup (subscribe exSubM 0 ["A", "A", "B"]).subscriptions 0).getD [] ↔
      "A" ∈ (dlookup (subscribe exSubM 0 (["A", "A", "B"].dedup)).subscriptions 0).getD []) :=
  ⟨by decide, (C8_subscribe_set_union exSubM 0 ["A", "A", "B"] (by decide)).1 "A"⟩

/-- C9: for every connection and every prior subscription state, unsubscribing with
an absent topic list leaves that connection with an empty subscribed set — a
registered connection's entry is cleared, and an unregistered connection reads as
the empty set. -/
theorem C9_unsubscribe_all_empties (m : ManagerState) (ws : Conn) :
    (dlookup (unsubscribe m ws none).subscriptions ws).getD [] = [] := by
  rcases hold : dlookup m.subscriptions ws with _ | old
  · simp [unsubscribe, hold]
  · simp [unsubscribe, hold, dlookup_dinsert]

/-- C10: a connection in the live list with no subscription entry is handled totally
by the broadcast: the lookup defaults to the empty list, so the connection is
skipped — it is never sent a payload, and a broadcast over just that connection
changes nothing, sends nothing and raises nothing. -/
theorem C10_missing_entry_skipped (m : ManagerState) (store : Store)
    (fails : Conn → Bool) (ws : Conn) (h : dlookup m.subscriptions ws = none) :
    (∀ p, (ws, p) ∉ (broadcast_data m store fails).sent) ∧
    broadcast_data ⟨[ws], m.subscriptions⟩ store fails =
      ⟨⟨[ws], m.subscriptions⟩, [], false⟩ := by
  constructor
  · exact broadcastGo_not_sent_of_no_entry store fails ws m.active_connections m h
  · show broadcastGo store fails [ws] ⟨[ws], m.subscriptions⟩ = _
    simp [broadcastGo, h]

/-- C10 witness: connection 3 is live with no subscription entry; it receives no
payload and a broadcast over it alone is a no-op. -/
theorem C10_missing_entry_witness :
    dlookup exSkipM.subscriptions 3 = none ∧
    (3, [("A", (5 : Value))]) ∉ (broadcast_data exSkipM exSkipStore exSkipFails).sent ∧
    broadcast_data ⟨[3], exSkipM.subscriptions⟩ exSkipStore exSkipFails =
      ⟨⟨[3], exSkipM.subscriptions⟩, [], false⟩ :=
  ⟨by decide,
   (C10_missing_entry_skipped exSkipM exSkipStore exSkipFails 3 (by decide)).1 [("A", 5)],
   (C10_missing_entry_skipped exSkipM exSkipStore exSkipFails 3 (by decide)).2⟩

end RTD
